import Mathlib

/-!
Shallow embedding of the observer_ward API service core
(`src/observer_ward/src/api.rs`) and resource-refresh helper
(`src/observer_ward/src/helper.rs`), with theorems settling the spec's
claims about config merging, bearer-token authorization, resource
fetching/validation, plugin refresh, cluster-lock fallback, batch result
delivery, self-update naming, and the config-update endpoint's frame.
-/

namespace ObserverWard

/-- Modelled from the spec: `ObserverWardConfig` is declared in the
repository's `cli` module, which is not among the provided sources. Its
field set is reconstructed from the uses in `api.rs`/`helper.rs` and from
§3 of the spec (ServiceConfig / ScanRequest); payload types are modelled
abstractly (`String` for paths/modes, `Option` for optional fields). -/
structure ObserverWardConfig where
  target : List String
  plugin : Option String
  config_dir : String
  mode : Option String
  proxy : Option String
  nuclei_args : List String
  webhook : Option String
  token : Option String
  update_fingerprint : Bool
  update_service_fingerprint : Bool
  update_plugin : Bool
  deriving Repr, DecidableEq

/-- `validator` from `api.rs` lines 23–29: if the server has a configured
token, compare it to the presented bearer credential; otherwise accept. -/
def validator (token_auth : Option String) (credentials : String) : Bool :=
  match token_auth with
  | some token => token == credentials
  | none => true

/-- The config-merge block shared verbatim by `what_web_api`
(`api.rs` lines 42–49) and `set_config_api` (`api.rs` lines 92–100):
clone the request config, conditionally override `plugin`, then
unconditionally override `config_dir`, `mode`, `proxy`, `nuclei_args`
from the server's pinned config. -/
def mergeConfig (config cli_config : ObserverWardConfig) : ObserverWardConfig :=
  let config :=
    if config.plugin.isSome then { config with plugin := cli_config.plugin }
    else config
  { config with
    config_dir := cli_config.config_dir
    mode := cli_config.mode
    proxy := cli_config.proxy
    nuclei_args := cli_config.nuclei_args }

/-- Contents of the file at a fixed destination path: `none` means no file
exists there, `some bytes` the file's bytes. -/
abbrev FileState := Option (List Nat)

/-- Environment of one download attempt against one URL, as observed by
`download_file_from_github` (`helper.rs` lines 89–125):
`netErr` — `client.get(url).send()` returned `Err`;
`createErr success body` — a response arrived but `File::create` failed;
`response success body` — a response arrived (with its status-success flag
and body bytes) and `File::create` succeeded. -/
inductive Attempt where
  | netErr
  | createErr (success : Bool) (body : List Nat)
  | response (success : Bool) (body : List Nat)
  deriving Repr, DecidableEq

/-- `download_file_from_github` (`helper.rs` lines 89–125) for one URL,
acting on the destination file. On `send()` error: return `Err`, file
untouched. On a response: `File::create(filename)` runs first (truncating
or creating the destination); if it fails, return `Err` with the file
untouched; then the status code is checked — non-success returns `Err`
(after the truncation); success copies the body into the file. -/
def download_file_from_github (a : Attempt) (fs : FileState) :
    Except Unit Unit × FileState :=
  match a with
  | .netErr => (.error (), fs)
  | .createErr _ _ => (.error (), fs)
  | .response success body =>
    let fs := some []
    if success then (.ok (), some body) else (.error (), fs)

/-- Whether an attempt's environment makes `download_file_from_github`
succeed (it does not depend on the prior file state). -/
def Attempt.ok : Attempt → Bool
  | .response true _ => true
  | _ => false

/-- The `for url in urls` loop of `update_fingerprint` (`helper.rs` lines
20–35) and its twin in `update_service_fingerprint` (lines 64–74): try
each URL in order, `continue` past an `Err`, `break` on the first `Ok`.
Returns whether some attempt succeeded, with the resulting file state. -/
def fetchLoop : List Attempt → FileState → Bool × FileState
  | [], fs => (false, fs)
  | a :: rest, fs =>
    match download_file_from_github a fs with
    | (.ok _, fs') => (true, fs')
    | (.error _, fs') => fetchLoop rest fs'

/-- `update_fingerprint` (`helper.rs` lines 17–56): run the fetch loop,
then if a file exists at the destination (`File::open` succeeds), parse it
as `Vec<Template>`; keep it on success, `remove_file` it on failure.
`parseTemplates` abstracts `serde_json::from_reader::<File, Vec<Template>>`
succeeding on the file's bytes. Returns the final destination file state. -/
def update_fingerprint (parseTemplates : List Nat → Bool)
    (attempts : List Attempt) (fs : FileState) : FileState :=
  match (fetchLoop attempts fs).2 with
  | none => none
  | some c => if parseTemplates c then some c else none

/-- `update_service_fingerprint` (`helper.rs` lines 60–87): identical
shape to `update_fingerprint` — fetch loop over its own URL list into its
own destination, then parse-validate, keep on success, delete on parse
failure. -/
def update_service_fingerprint (parseTemplates : List Nat → Bool)
    (attempts : List Attempt) (fs : FileState) : FileState :=
  match (fetchLoop attempts fs).2 with
  | none => none
  | some c => if parseTemplates c then some c else none

/-- The on-disk state `update_plugins` acts on: the downloaded
`plugins.zip` file and the `plugins` directory (abstracted to its byte
content, `none` when the directory does not exist). -/
structure PluginFs where
  zipFile : FileState
  pluginDir : Option (List Nat)
  deriving Repr, DecidableEq

/-- `update_plugins` (`helper.rs` lines 160–200): download the bundle to
`plugins.zip`; on fetch `Err`, log and `return` (the plugin directory is
not touched). On fetch success: if the `plugins` directory exists,
`remove_dir_all` it; then open the zip — on open or archive error the
directory stays removed, otherwise extract into the config directory
(`extract` abstracts `zip::ZipArchive::new` + `extract`: `none` means the
archive failed to open, `some dir` the extracted plugin-directory bytes). -/
def update_plugins (extract : List Nat → Option (List Nat))
    (a : Attempt) (st : PluginFs) : PluginFs :=
  match download_file_from_github a st.zipFile with
  | (.error _, zf) => { st with zipFile := zf }
  | (.ok _, zf) =>
    let st' : PluginFs := { zipFile := zf, pluginDir := none }
    match zf with
    | none => st'
    | some content =>
      match extract content with
      | none => st'
      | some dir => { st' with pluginDir := some dir }

/-- The engine crate's `ClusterType` is an external collaborator: an opaque
compiled template cluster, modelled as an abstract payload. `ClusterType::default()`
is the `Inhabited` default. -/
structure ClusterType where
  payload : Nat
  deriving Repr, DecidableEq

instance : Inhabited ClusterType := ⟨⟨0⟩⟩

/-- One entry of the scan result stream: `ExecuteResult.matched` is the
`BTreeMap<String, MatchedResult>` pushed per target (the `MatchedResult`
payload is opaque, modelled as `Nat`). -/
structure ExecuteResult where
  matched : List (String × Nat)
  deriving Repr, DecidableEq

/-- HTTP responses the three handlers produce. -/
inductive ApiResponse where
  | unauthorized
  | okEmpty
  | okJson (results : List (List (String × Nat)))
  | okConfig (cfg : ObserverWardConfig)
  deriving Repr, DecidableEq

/-- The cluster-snapshot read of `what_web_api` (`api.rs` lines 51–57):
`cl.read()` either yields a guard (clone its contents) or fails, in which
case `ClusterType::default()` is used. -/
def readCluster (lockRead : Except Unit ClusterType) : ClusterType :=
  match lockRead with
  | .ok c => c
  | .error _ => default

/-- The batch accumulation loop of `what_web_api` (`api.rs` lines 72–75):
`while let Some(execute_result) = rx.next().await` pushing
`execute_result.matched`; the channel's full content until the producer
closes it is the input list. -/
def batchCollect : List ExecuteResult → List (List (String × Nat))
  | [] => []
  | r :: rest => r.matched :: batchCollect rest

/-- `what_web_api` (`api.rs` lines 31–78): auth check, config merge,
webhook-mode flag, cluster snapshot (with default fallback), engine spawn,
then either an immediate empty acknowledgment (webhook mode) or the
accumulated batch response. The opaque engine is a parameter producing the
finite stream of results the scan task pushes before closing the channel. -/
def what_web_api (token : Option String) (auth : String)
    (config cli_config : ObserverWardConfig)
    (lockRead : Except Unit ClusterType)
    (engine : ObserverWardConfig → ClusterType → List ExecuteResult) :
    ApiResponse :=
  if !(validator token auth) then .unauthorized
  else
    let config := mergeConfig config cli_config
    let webhook := config.webhook.isSome
    let cl := readCluster lockRead
    let results := engine config cl
    if webhook then .okEmpty
    else .okJson (batchCollect results)

/-- The in-process state shared across requests via `web::Data`: the pinned
`ObserverWardConfig` loaded at startup and the `RwLock<ClusterType>`
contents. -/
structure ServerState where
  cli_config : ObserverWardConfig
  cluster : ClusterType
  deriving Repr, DecidableEq

/-- Filesystem-refresh helper calls `set_config_api` may perform; they act
on the filesystem only (modelled by `update_fingerprint`,
`update_service_fingerprint`, `update_plugins` above), never on the
in-process `ServerState`. -/
inductive HelperAction where
  | updateFingerprint
  | updateServiceFingerprint
  | updatePlugins
  deriving Repr, DecidableEq

/-- `set_config_api` (`api.rs` lines 80–118): auth check, config merge into
a local copy `cfg`, conditional filesystem refresh calls, then — when the
write lock is acquired — replace the shared cluster with
`cluster_templates(&cfg.templates())` (modelled as one opaque function of
the merged config), and answer with the merged config. Returns the
response, the new in-process state, and the refresh actions performed. -/
def set_config_api (token : Option String) (auth : String)
    (config : ObserverWardConfig) (writeLockOk : Bool)
    (cluster_templates : ObserverWardConfig → ClusterType)
    (st : ServerState) : ApiResponse × ServerState × List HelperAction :=
  if !(validator token auth) then (.unauthorized, st, [])
  else
    let cfg := mergeConfig config st.cli_config
    let actions :=
      (if cfg.update_fingerprint then [HelperAction.updateFingerprint]
        else []) ++
      (if cfg.update_service_fingerprint
        then [HelperAction.updateServiceFingerprint] else []) ++
      (if cfg.update_plugin then [HelperAction.updatePlugins] else [])
    let st' := if writeLockOk then { st with cluster := cluster_templates cfg }
      else st
    (.okConfig cfg, st', actions)

/-- `get_config_api` (`api.rs` lines 120–130): auth check, then return the
pinned startup configuration verbatim. -/
def get_config_api (token : Option String) (auth : String)
    (st : ServerState) : ApiResponse :=
  if !(validator token auth) then .unauthorized
  else .okConfig st.cli_config

/-- `update_self` (`helper.rs` lines 126–159) artifact naming: start from
the compile-time `OBSERVER_WARD_TARGET` triple, append `_mcp` under the
`mcp` feature and `.exe` on Windows. -/
def update_self_download_name (target : String)
    (mcpFeature isWindows : Bool) : String :=
  let n := target
  let n := if mcpFeature then n ++ "_mcp" else n
  if isWindows then n ++ ".exe" else n

/-- The filename `update_self` saves the downloaded binary under:
`format!("update_{download_name}")`. -/
def update_self_save_filename (target : String)
    (mcpFeature isWindows : Bool) : String :=
  "update_" ++ update_self_download_name target mcpFeature isWindows

/-- A sample concrete configuration used by witnesses. -/
def sampleConfig : ObserverWardConfig :=
  { target := ["https://example.com"]
    plugin := none
    config_dir := "/etc/ow"
    mode := none
    proxy := none
    nuclei_args := []
    webhook := none
    token := none
    update_fingerprint := false
    update_service_fingerprint := false
    update_plugin := false }

end ObserverWard

namespace ObserverWard

/-- C1: for every inbound request config, the merged (effective) config has
`config_dir`, `mode`, `proxy` and `nuclei_args` equal to the server's
pinned values, regardless of what the request supplied. -/
theorem mergeConfig_pins_trusted_fields (req cli : ObserverWardConfig) :
    (mergeConfig req cli).config_dir = cli.config_dir ∧
    (mergeConfig req cli).mode = cli.mode ∧
    (mergeConfig req cli).proxy = cli.proxy ∧
    (mergeConfig req cli).nuclei_args = cli.nuclei_args := by
  unfold mergeConfig
  by_cases h : req.plugin.isSome <;> simp [h]

/-- C2: `validator` accepts every credential when no token is configured,
and with a configured token it accepts exactly the string-equal
credential. It is a pure function of its two arguments (no side effects
in the embedding). -/
theorem validator_spec :
    (∀ cred, validator none cred = true) ∧
    (∀ secret cred, validator (some secret) cred = (secret == cred)) := by
  constructor
  · intro cred; rfl
  · intro secret cred; rfl

/-- A failing attempt makes `download_file_from_github` return `Err`. -/
theorem download_error_of_not_ok (a : Attempt) (fs : FileState)
    (h : a.ok = false) :
    (download_file_from_github a fs).1 = Except.error () := by
  cases a with
  | netErr => rfl
  | createErr s b => rfl
  | response s b =>
    cases s with
    | false => rfl
    | true => simp [Attempt.ok] at h

/-- The fetch loop advances past a failing attempt, carrying whatever that
attempt left at the destination. -/
theorem fetchLoop_cons_error (a : Attempt) (rest : List Attempt)
    (fs : FileState) (h : a.ok = false) :
    fetchLoop (a :: rest) fs =
      fetchLoop rest (download_file_from_github a fs).2 := by
  cases a with
  | netErr => rfl
  | createErr s b => rfl
  | response s b =>
    cases s with
    | false => rfl
    | true => simp [Attempt.ok] at h

/-- C4 counterexample: an attempt that receives a response with a
non-success HTTP status fails, yet does NOT leave a previously present
destination file unchanged — `File::create` has already truncated it
(the status check in `download_file_from_github` comes after
`File::create`). -/
theorem download_failed_attempt_truncates_destination :
    (download_file_from_github (Attempt.response false []) (some [1, 2, 3])).1
        = Except.error () ∧
    (download_file_from_github (Attempt.response false []) (some [1, 2, 3])).2
        ≠ some [1, 2, 3] :=
  ⟨rfl, by simp [download_file_from_github]⟩

/-- C4 (amended): the fetch loop tries attempts in order, advances past
each failure, and stops at the first success with that attempt's body at
the destination, ignoring later candidates. A network-error attempt and a
local-create-failure attempt leave the destination unchanged, but an
attempt answered with a non-success HTTP status truncates the destination
to an empty file before failing. -/
theorem fetchLoop_order_and_failure_effects :
    (∀ pre post body fs, (∀ b ∈ pre, b.ok = false) →
      fetchLoop (pre ++ Attempt.response true body :: post) fs
        = (true, some body)) ∧
    (∀ fs, (download_file_from_github Attempt.netErr fs).2 = fs) ∧
    (∀ s body fs,
      (download_file_from_github (Attempt.createErr s body) fs).2 = fs) ∧
    (∀ body fs,
      (download_file_from_github (Attempt.response false body) fs).2
        = some []) := by
  refine ⟨?_, fun fs => rfl, fun s body fs => rfl, fun body fs => rfl⟩
  intro pre post body fs hpre
  induction pre generalizing fs with
  | nil => rfl
  | cons a rest ih =>
    have ha : a.ok = false := hpre a (List.mem_cons_self a rest)
    rw [List.cons_append, fetchLoop_cons_error a _ fs ha]
    exact ih _ (fun b hb => hpre b (List.mem_cons_of_mem a hb))

/-- C4 witness: with two failing candidates before a succeeding one (and a
further candidate after it), the loop succeeds with the third candidate's
body. -/
theorem fetchLoop_order_witness :
    fetchLoop
      [Attempt.netErr, Attempt.response false [], Attempt.response true [7],
        Attempt.netErr] (some [1, 2]) = (true, some [7]) :=
  fetchLoop_order_and_failure_effects.1
    [Attempt.netErr, Attempt.response false []] [Attempt.netErr] [7]
    (some [1, 2]) (by decide)

/-- C5: after `update_fingerprint`, any file present at the destination
parses as a `Vec<Template>`; when the fetch loop leaves contents `c`, the
final state keeps `c` exactly when it parses and deletes it otherwise; and
`update_service_fingerprint` behaves identically. -/
theorem update_fingerprint_validates (parse : List Nat → Bool)
    (attempts : List Attempt) (fs : FileState) :
    (∀ c, update_fingerprint parse attempts fs = some c → parse c = true) ∧
    (∀ c, (fetchLoop attempts fs).2 = some c →
      update_fingerprint parse attempts fs
        = (if parse c then some c else none)) ∧
    update_service_fingerprint parse attempts fs
      = update_fingerprint parse attempts fs := by
  refine ⟨?_, ?_, rfl⟩
  · intro c h
    unfold update_fingerprint at h
    cases hfs : (fetchLoop attempts fs).2 with
    | none => rw [hfs] at h; exact absurd h (by simp)
    | some d =>
      rw [hfs] at h
      cases hpd : parse d with
      | false => simp [hpd] at h
      | true =>
        simp [hpd] at h
        subst h
        exact hpd
  · intro c hfs
    unfold update_fingerprint
    rw [hfs]

/-- C5 witness: a successful download whose body parses is kept, and the
kept file indeed parses. -/
theorem update_fingerprint_validates_witness :
    ((fun c => c == ([7] : List Nat)) [7] = true) ∧
    (update_fingerprint (fun c => c == ([7] : List Nat))
        [Attempt.response true [7]] none
      = if (fun c => c == ([7] : List Nat)) [7] then some [7] else none) :=
  ⟨(update_fingerprint_validates (fun c => c == ([7] : List Nat))
      [Attempt.response true [7]] none).1 [7] (by decide),
   (update_fingerprint_validates (fun c => c == ([7] : List Nat))
      [Attempt.response true [7]] none).2.1 [7] (by decide)⟩

/-- C6: when the bundle fetch fails, `update_plugins` returns before the
destructive step: the whole state change is at most the zip file the
failed download touched, and the plugin directory is exactly as before. -/
theorem update_plugins_fetch_failure_frame
    (extract : List Nat → Option (List Nat)) (a : Attempt) (st : PluginFs)
    (h : (download_file_from_github a st.zipFile).1 = Except.error ()) :
    update_plugins extract a st
      = { st with zipFile := (download_file_from_github a st.zipFile).2 } ∧
    (update_plugins extract a st).pluginDir = st.pluginDir := by
  cases a with
  | netErr => exact ⟨rfl, rfl⟩
  | createErr s b => exact ⟨rfl, rfl⟩
  | response s b =>
    cases s with
    | false => exact ⟨rfl, rfl⟩
    | true => simp [download_file_from_github] at h

/-- C6 witness: a network-error fetch leaves a populated plugin directory
untouched. -/
theorem update_plugins_fetch_failure_frame_witness :
    update_plugins (fun _ => none) Attempt.netErr ⟨some [1], some [5]⟩
      = ⟨some [1], some [5]⟩ ∧
    (update_plugins (fun _ => none) Attempt.netErr
        ⟨some [1], some [5]⟩).pluginDir = some [5] :=
  update_plugins_fetch_failure_frame (fun _ => none) Attempt.netErr
    ⟨some [1], some [5]⟩ rfl

/-- C3: the merge overrides `plugin` with the server's pinned plugin value
exactly when the request supplied one (`is_some`); a request that omits
`plugin` keeps it absent — the override is conditional, unlike the
unconditional `config_dir`/`mode`/`proxy`/`nuclei_args` overrides. -/
theorem mergeConfig_plugin_conditional (req cli : ObserverWardConfig) :
    (mergeConfig req cli).plugin =
      (if req.plugin.isSome then cli.plugin else none) := by
  unfold mergeConfig
  by_cases h : req.plugin.isSome
  · simp [h]
  · simp [h, Option.not_isSome_iff_eq_none.mp h]

/-- C7: when the read lock on the cluster state cannot be acquired, the
scan endpoint behaves exactly as if it had read a freshly constructed
default cluster — the request is still served, never rejected. -/
theorem what_web_api_lock_fallback (token : Option String) (auth : String)
    (cfg cli : ObserverWardConfig)
    (engine : ObserverWardConfig → ClusterType → List ExecuteResult)
    (h : validator token auth = true) :
    what_web_api token auth cfg cli (Except.error ()) engine
      = what_web_api token auth cfg cli (Except.ok (default : ClusterType))
          engine ∧
    what_web_api token auth cfg cli (Except.error ()) engine
      ≠ ApiResponse.unauthorized := by
  constructor
  · rfl
  · unfold what_web_api
    by_cases hw : (mergeConfig cfg cli).webhook.isSome <;> simp [h, hw]

/-- C7 witness: with no token configured, a scan request under a failed
lock read equals the default-cluster run and is served. -/
theorem what_web_api_lock_fallback_witness :
    (what_web_api none "x" sampleConfig sampleConfig (Except.error ())
        (fun _ _ => [])
      = what_web_api none "x" sampleConfig sampleConfig
          (Except.ok (default : ClusterType)) (fun _ _ => [])) ∧
    what_web_api none "x" sampleConfig sampleConfig (Except.error ())
        (fun _ _ => []) ≠ ApiResponse.unauthorized :=
  what_web_api_lock_fallback none "x" sampleConfig sampleConfig
    (fun _ _ => []) rfl

/-- C8: in batch mode (no webhook in the request), the response is the
JSON list of exactly the `matched` mapping of every result the engine
pushed, one per result, in channel arrival order; the accumulator is
precisely `List.map` over the channel contents, so nothing is dropped or
duplicated, and it terminates exactly at channel close (end of list). -/
theorem what_web_api_batch (token : Option String) (auth : String)
    (cfg cli : ObserverWardConfig) (lockRead : Except Unit ClusterType)
    (engine : ObserverWardConfig → ClusterType → List ExecuteResult)
    (h : validator token auth = true) (hw : cfg.webhook = none) :
    what_web_api token auth cfg cli lockRead engine
      = ApiResponse.okJson
          ((engine (mergeConfig cfg cli) (readCluster lockRead)).map
            (fun r => r.matched)) ∧
    (∀ rs, batchCollect rs = rs.map (fun r => r.matched)) := by
  have hbc : ∀ rs, batchCollect rs = rs.map (fun r => r.matched) := by
    intro rs
    induction rs with
    | nil => rfl
    | cons r rest ih => simp [batchCollect, ih]
  have hmw : (mergeConfig cfg cli).webhook = none := by
    unfold mergeConfig
    by_cases hp : cfg.plugin.isSome <;> simp [hp, hw]
  refine ⟨?_, hbc⟩
  unfold what_web_api
  simp [h, hmw, hbc]

/-- C8 witness: two engine results yield exactly their two matched
mappings, in order. -/
theorem what_web_api_batch_witness :
    what_web_api none "" sampleConfig sampleConfig
        (Except.ok ⟨3⟩)
        (fun _ _ => [⟨[("a", 1)]⟩, ⟨[("b", 2)]⟩])
      = ApiResponse.okJson [[("a", 1)], [("b", 2)]] :=
  (what_web_api_batch none "" sampleConfig sampleConfig (Except.ok ⟨3⟩)
    (fun _ _ => [⟨[("a", 1)]⟩, ⟨[("b", 2)]⟩]) rfl rfl).1

/-- C9: `update_self` saves the downloaded binary under the side-by-side
name `update_<download_name>` — for every target triple and feature/OS
combination this differs from the platform binary name itself, so the
running binary image (conventionally named by the target triple) is never
written in place. -/
theorem update_self_saves_side_by_side (target : String)
    (mcpFeature isWindows : Bool) :
    update_self_save_filename target mcpFeature isWindows
      = "update_" ++ update_self_download_name target mcpFeature isWindows ∧
    update_self_save_filename target mcpFeature isWindows
      ≠ update_self_download_name target mcpFeature isWindows := by
  refine ⟨rfl, ?_⟩
  intro hcontra
  have hlen := congrArg String.length hcontra
  rw [update_self_save_filename, String.length_append] at hlen
  simp at hlen
  exact absurd hlen (by decide)

/-- C10: `set_config_api` never mutates the pinned startup configuration;
its whole effect on the in-process shared state is at most replacing the
cluster handle, and a subsequent `GET /v1/config` (with any credentials)
answers exactly as it did before the update request. -/
theorem set_config_api_preserves_pinned_config (token : Option String)
    (auth : String) (config : ObserverWardConfig) (writeLockOk : Bool)
    (cluster_templates : ObserverWardConfig → ClusterType)
    (st : ServerState) :
    (set_config_api token auth config writeLockOk cluster_templates
        st).2.1.cli_config = st.cli_config ∧
    (set_config_api token auth config writeLockOk cluster_templates st).2.1
      = { st with
          cluster := (set_config_api token auth config writeLockOk
            cluster_templates st).2.1.cluster } ∧
    (∀ t2 a2,
      get_config_api t2 a2
          (set_config_api token auth config writeLockOk cluster_templates
            st).2.1
        = get_config_api t2 a2 st) := by
  unfold set_config_api get_config_api
  by_cases hv : validator token auth <;> by_cases hw : writeLockOk <;>
    simp [hv, hw]

end ObserverWard
